import Mathlib

/-!
Shallow embedding of the loan-manager contract
(src/contracts/loan_manager/src/lib.rs) and verification of the frozen
claims about it.

Modelling conventions:
- Rust `i128` values are modelled as unbounded `Int` (no claim under
  consideration depends on 128-bit overflow); `u32`/`u64` as `Nat`.
  Rust `i128` division truncates toward zero, so every source `/` on
  `i128` is `Int.tdiv`; `u32` division is `Nat` division (same
  truncation).
- `Address` values are modelled as `Nat`; the four configuration
  addresses stored by `__initialize` (NFT contract, pool, oracle, USDC
  token) are only ever used to route external calls and to decide the
  oracle `require_auth` check, so they are not carried in the state:
  the oracle authentication outcome is passed as an explicit boolean to
  the two oracle-gated entry points, and external calls (token
  transfer, stake/unstake, pool borrow/repay) mutate no loan-manager
  storage and are abstracted as succeeding.  The contract code itself
  places no condition on them.
- Contract storage is modelled explicitly: a loan counter, the
  `loan_id -> Loan` map and the `borrower -> Vec<u64>` index, as
  association lists with keyed overwrite, exactly the semantics of
  `env.storage().instance().set/get`.
- A Soroban panic (a failed `assert!`/`expect`, or an `i128` division
  by zero) aborts the invocation and reverts every storage write, so a
  failing entry point is modelled as `Except.error e` carrying the kind
  of failure, with no state produced; `commit` below realises the
  revert-on-failure transaction semantics.
-/

namespace LoanManager

/-- Loan lifecycle status, as in the source `LoanStatus` enum. -/
inductive LoanStatus where
  | Pending
  | Active
  | Repaid
  | Defaulted
deriving DecidableEq

/-- The loan record, field for field the source `Loan` struct
(`i128` as `Int`, `u32`/`u64` as `Nat`, `Address` as `Nat`). -/
structure Loan where
  loan_id : Nat
  borrower : Nat
  nft_collateral_id : Nat
  loan_amount : Int
  outstanding_balance : Int
  total_repaid : Int
  interest_rate : Nat
  duration_months : Nat
  monthly_payment : Int
  start_timestamp : Nat
  next_payment_due : Nat
  status : LoanStatus
  payments_made : Nat
  payments_missed : Nat
deriving DecidableEq

/-- Failure kinds of an invocation.  The source signals failures by
panicking; the panic messages map onto the spec error kinds:
`expect (Loan does not exist)` is `NotFound`, the status `assert!`
failures are `InvalidState`, a failed oracle `require_auth` is
`Unauthorized`, and an `i128` division by zero is its own trap kind
`PanicDivByZero` (the source has no `InvalidArgument` path at all). -/
inductive Err where
  | NotFound
  | InvalidState
  | Unauthorized
  | InvalidArgument
  | PanicDivByZero
deriving DecidableEq

/-- Keyed lookup in an association list, the semantics of
`env.storage().instance().get(&DataKey::Loan(id))`. -/
def lookupLoan : List (Nat × Loan) → Nat → Option Loan
  | [], _ => none
  | (k, l) :: rest, id => if k = id then some l else lookupLoan rest id

/-- Keyed overwrite in an association list, the semantics of
`env.storage().instance().set(&DataKey::Loan(id), &loan)`. -/
def storeLoan : List (Nat × Loan) → Nat → Loan → List (Nat × Loan)
  | [], id, l => [(id, l)]
  | (k, l0) :: rest, id, l =>
      if k = id then (id, l) :: rest else (k, l0) :: storeLoan rest id l

/-- Lookup of a borrower's loan-id vector, defaulting to the empty
vector (`unwrap_or(Vec::new(&env))`). -/
def lookupBorrowerLoans : List (Nat × List Nat) → Nat → List Nat
  | [], _ => []
  | (k, v) :: rest, b => if k = b then v else lookupBorrowerLoans rest b

/-- Keyed overwrite for the borrower index. -/
def storeBorrowerLoans : List (Nat × List Nat) → Nat → List Nat → List (Nat × List Nat)
  | [], b, v => [(b, v)]
  | (k, v0) :: rest, b, v =>
      if k = b then (b, v) :: rest else (k, v0) :: storeBorrowerLoans rest b v

/-- The persisted instance storage of the contract. -/
structure State where
  loan_counter : Nat
  loans : List (Nat × Loan)
  borrower_loans : List (Nat × List Nat)
deriving DecidableEq

/-- Storage right after `__initialize`: counter 0, no loans. -/
def initState : State :=
  { loan_counter := 0, loans := [], borrower_loans := [] }

/-- Source `calculate_interest_rate`: reads the NFT contract address
but, as the placeholder logic, returns 2000 basis points for every
collateral id. -/
def calculate_interest_rate (_nft_id : Nat) : Nat := 2000

/-- Source `calculate_monthly_payment`.  `monthly_rate_bps` is
computed (u32 truncating division) but unused, as in the source.
`total_repayment / months` is an `i128` division: when `months = 0`
it traps (division by zero panics in Rust), hence the `Option`. -/
def calculate_monthly_payment (principal : Int) (annual_rate_bps : Nat)
    (months : Nat) : Option Int :=
  let _monthly_rate_bps := annual_rate_bps / 12
  let total_interest :=
    (principal * (annual_rate_bps : Int) * (months : Int)).tdiv (12 * 10000)
  let total_repayment := principal + total_interest
  if months = 0 then none
  else some (total_repayment.tdiv (months : Int))

/-- Source `calculate_interest_portion`: `annual_rate_bps / 12` is u32
truncating division, the rest is `i128` arithmetic. -/
def calculate_interest_portion (outstanding : Int) (annual_rate_bps : Nat) : Int :=
  let monthly_rate_bps := annual_rate_bps / 12
  (outstanding * (monthly_rate_bps : Int)).tdiv 10000

/-- The mutation `make_payment` performs on the loan record once its
checks have passed: split the amount against the pre-payment balance,
accumulate `total_repaid`, subtract the principal portion (no clamp),
bump the counters, and flip to `Repaid` when the updated balance is
`<= 0`. -/
def payUpdate (loan : Loan) (amount : Int) : Loan :=
  let interest_portion :=
    calculate_interest_portion loan.outstanding_balance loan.interest_rate
  let principal_portion :=
    if amount > interest_portion then amount - interest_portion else 0
  let loan := { loan with
    total_repaid := loan.total_repaid + amount,
    outstanding_balance := loan.outstanding_balance - principal_portion,
    payments_made := loan.payments_made + 1,
    next_payment_due := loan.next_payment_due + 30 * 24 * 60 * 60 }
  if loan.outstanding_balance ≤ 0 then { loan with status := .Repaid } else loan

/-- Source `make_payment`: load the loan (`expect`), assert it is
`Active`, transfer USDC borrower → pool (external, no loan-manager
storage effect), apply `payUpdate`, store the loan.  Note the source
performs no validation of `amount` whatsoever. -/
def make_payment (s : State) (loan_id : Nat) (amount : Int) : Except Err State :=
  match lookupLoan s.loans loan_id with
  | none => .error .NotFound
  | some loan =>
      if loan.status = .Active then
        .ok { s with loans := storeLoan s.loans loan_id (payUpdate loan amount) }
      else
        .error .InvalidState

/-- Source `approve_loan`: load the loan, assert `Pending`, stake the
NFT and draw from the pool (external calls), set `Active`, store. -/
def approve_loan (s : State) (loan_id : Nat) : Except Err State :=
  match lookupLoan s.loans loan_id with
  | none => .error .NotFound
  | some loan =>
      if loan.status = .Pending then
        .ok { s with loans := storeLoan s.loans loan_id { loan with status := .Active } }
      else
        .error .InvalidState

/-- Source `process_automatic_repayment`: `require_auth` on the stored
oracle address (modelled by the `oracleAuth` flag), load the loan, cap
the remittance at `monthly_payment`, delegate to `make_payment`, and
return the residual. -/
def process_automatic_repayment (s : State) (oracleAuth : Bool) (loan_id : Nat)
    (remittance_amount : Int) : Except Err (State × Int) :=
  if oracleAuth then
    match lookupLoan s.loans loan_id with
    | none => .error .NotFound
    | some loan =>
        let payment_amount :=
          if remittance_amount ≥ loan.monthly_payment then loan.monthly_payment
          else remittance_amount
        match make_payment s loan_id payment_amount with
        | .ok s' => .ok (s', remittance_amount - payment_amount)
        | .error e => .error e
  else
    .error .Unauthorized

/-- The mutation `mark_payment_missed` performs on the loaded loan:
increment `payments_missed` and default the loan when the counter
reaches 2.  Note there is no status precondition in the source. -/
def missedUpdate (loan : Loan) : Loan :=
  let loan := { loan with payments_missed := loan.payments_missed + 1 }
  if 2 ≤ loan.payments_missed then { loan with status := .Defaulted } else loan

/-- Source `mark_payment_missed`: `require_auth` on the oracle, load
the loan (`expect`), apply `missedUpdate`, store.  No status check. -/
def mark_payment_missed (s : State) (oracleAuth : Bool) (loan_id : Nat) :
    Except Err State :=
  if oracleAuth then
    match lookupLoan s.loans loan_id with
    | none => .error .NotFound
    | some loan =>
        .ok { s with loans := storeLoan s.loans loan_id (missedUpdate loan) }
  else
    .error .Unauthorized

/-- Source `request_loan` (borrower `require_auth` is assumed to have
passed; it constrains only the caller identity).  The rate and the
monthly payment are computed before the counter is bumped, so a
division-by-zero trap in `calculate_monthly_payment` (duration 0)
aborts the call before any write.  Returns the new loan id. -/
def request_loan (s : State) (borrower : Nat) (nft_id : Nat) (amount : Int)
    (duration_months : Nat) (timestamp : Nat) : Except Err (State × Nat) :=
  let interest_rate := calculate_interest_rate nft_id
  match calculate_monthly_payment amount interest_rate duration_months with
  | none => .error .PanicDivByZero
  | some monthly_payment =>
      let counter := s.loan_counter + 1
      let loan : Loan :=
        { loan_id := counter
          borrower := borrower
          nft_collateral_id := nft_id
          loan_amount := amount
          outstanding_balance := amount
          total_repaid := 0
          interest_rate := interest_rate
          duration_months := duration_months
          monthly_payment := monthly_payment
          start_timestamp := timestamp
          next_payment_due := timestamp + 30 * 24 * 60 * 60
          status := .Pending
          payments_made := 0
          payments_missed := 0 }
      let borrower_loans := lookupBorrowerLoans s.borrower_loans borrower ++ [counter]
      .ok ({ loan_counter := counter
             loans := storeLoan s.loans counter loan
             borrower_loans := storeBorrowerLoans s.borrower_loans borrower borrower_loans },
           counter)

/-- Source `get_loan`: load the loan or trap `NotFound`. -/
def get_loan (s : State) (loan_id : Nat) : Except Err Loan :=
  match lookupLoan s.loans loan_id with
  | none => .error .NotFound
  | some loan => .ok loan

/-- Transaction semantics of the host: a failing invocation reverts
every write, so the post-state of a call is the returned state on
success and the unchanged pre-state on failure. -/
def commit (s : State) : Except Err State → State
  | .ok s' => s'
  | .error _ => s

/-- Transaction semantics for entry points returning a value. -/
def commitFst (s : State) : Except Err (State × Nat) → State
  | .ok p => p.1
  | .error _ => s

/-- A sequence of `make_payment` calls on one loan, each of which must
succeed for the sequence to succeed. -/
def paySequence (s : State) (loan_id : Nat) : List Int → Except Err State
  | [] => .ok s
  | a :: rest =>
      match make_payment s loan_id a with
      | .ok s' => paySequence s' loan_id rest
      | .error e => .error e

/-- States reachable from the initialized contract by any sequence of
(successful) entry-point invocations; failed invocations leave the
storage unchanged by the transaction semantics, so they need no case. -/
inductive Reachable : State → Prop where
  | init : Reachable initState
  | request (s s' : State) (b n : Nat) (a : Int) (d t id : Nat) :
      Reachable s → request_loan s b n a d t = .ok (s', id) → Reachable s'
  | approve (s s' : State) (id : Nat) :
      Reachable s → approve_loan s id = .ok s' → Reachable s'
  | pay (s s' : State) (id : Nat) (a : Int) :
      Reachable s → make_payment s id a = .ok s' → Reachable s'
  | autopay (s s' : State) (auth : Bool) (id : Nat) (r rem : Int) :
      Reachable s → process_automatic_repayment s auth id r = .ok (s', rem) →
      Reachable s'
  | missed (s s' : State) (auth : Bool) (id : Nat) :
      Reachable s → mark_payment_missed s auth id = .ok s' → Reachable s'

/-! Helper lemmas about the storage primitives and the operations. -/

theorem lookupLoan_storeLoan (m : List (Nat × Loan)) (k : Nat) (v : Loan) (k' : Nat) :
    lookupLoan (storeLoan m k v) k' = if k' = k then some v else lookupLoan m k' := by
  induction m with
  | nil =>
      by_cases h : k' = k
      · subst h; simp [storeLoan, lookupLoan]
      · simp [storeLoan, lookupLoan, h, Ne.symm h]
  | cons p rest ih =>
      obtain ⟨k0, l0⟩ := p
      by_cases h0 : k0 = k
      · subst h0
        by_cases h : k' = k0
        · subst h; simp [storeLoan, lookupLoan]
        · simp [storeLoan, lookupLoan, h, Ne.symm h]
      · by_cases h : k0 = k'
        · subst h
          have hk : ¬ k0 = k := h0
          simp [storeLoan, lookupLoan, h0, hk, Ne.symm hk]
        · simp [storeLoan, lookupLoan, h0, h, ih]

theorem make_payment_ok (s : State) (id : Nat) (l : Loan) (a : Int)
    (hl : lookupLoan s.loans id = some l) (hA : l.status = .Active) :
    make_payment s id a =
      .ok { s with loans := storeLoan s.loans id (payUpdate l a) } := by
  simp [make_payment, hl, hA]

theorem make_payment_ok_inv (s : State) (id : Nat) (a : Int) (s' : State)
    (h : make_payment s id a = .ok s') :
    ∃ l, lookupLoan s.loans id = some l ∧ l.status = .Active ∧
      s' = { s with loans := storeLoan s.loans id (payUpdate l a) } := by
  unfold make_payment at h
  split at h
  · exact absurd h (by simp)
  · next l hl =>
      split at h
      · next hA => exact ⟨l, hl, hA, ((Except.ok.injEq _ _).mp h).symm⟩
      · exact absurd h (by simp)

theorem approve_loan_ok_inv (s : State) (id : Nat) (s' : State)
    (h : approve_loan s id = .ok s') :
    ∃ l, lookupLoan s.loans id = some l ∧ l.status = .Pending ∧
      s' = { s with loans := storeLoan s.loans id { l with status := .Active } } := by
  unfold approve_loan at h
  split at h
  · exact absurd h (by simp)
  · next l hl =>
      split at h
      · next hP => exact ⟨l, hl, hP, ((Except.ok.injEq _ _).mp h).symm⟩
      · exact absurd h (by simp)

theorem mark_payment_missed_ok_inv (s : State) (auth : Bool) (id : Nat) (s' : State)
    (h : mark_payment_missed s auth id = .ok s') :
    ∃ l, lookupLoan s.loans id = some l ∧
      s' = { s with loans := storeLoan s.loans id (missedUpdate l) } := by
  unfold mark_payment_missed at h
  split at h
  · split at h
    · exact absurd h (by simp)
    · next l hl => exact ⟨l, hl, ((Except.ok.injEq _ _).mp h).symm⟩
  · exact absurd h (by simp)

theorem process_automatic_repayment_ok_inv (s : State) (auth : Bool) (id : Nat)
    (r : Int) (s' : State) (rem : Int)
    (h : process_automatic_repayment s auth id r = .ok (s', rem)) :
    ∃ a, make_payment s id a = .ok s' := by
  simp only [process_automatic_repayment] at h
  split at h
  · split at h
    · exact absurd h (by simp)
    · next l hl =>
        cases hmk : make_payment s id
            (if r ≥ l.monthly_payment then l.monthly_payment else r) with
        | ok t =>
            rw [hmk] at h
            simp only [Except.ok.injEq, Prod.mk.injEq] at h
            exact ⟨_, by rw [hmk, h.1]⟩
        | error e =>
            rw [hmk] at h
            exact absurd h (by simp)
  · exact absurd h (by simp)

theorem request_loan_ok_inv (s : State) (b n : Nat) (a : Int) (d t : Nat)
    (s' : State) (id : Nat)
    (h : request_loan s b n a d t = .ok (s', id)) :
    ∃ mp, calculate_monthly_payment a (calculate_interest_rate n) d = some mp ∧
      id = s.loan_counter + 1 ∧
      s'.loans = storeLoan s.loans (s.loan_counter + 1)
        { loan_id := s.loan_counter + 1
          borrower := b
          nft_collateral_id := n
          loan_amount := a
          outstanding_balance := a
          total_repaid := 0
          interest_rate := calculate_interest_rate n
          duration_months := d
          monthly_payment := mp
          start_timestamp := t
          next_payment_due := t + 30 * 24 * 60 * 60
          status := .Pending
          payments_made := 0
          payments_missed := 0 } := by
  simp only [request_loan] at h
  split at h
  · exact absurd h (by simp)
  · next mp hmp =>
      refine ⟨mp, hmp, ?_, ?_⟩
      · exact (((Prod.mk.injEq _ _ _ _).mp ((Except.ok.injEq _ _).mp h)).2).symm
      · have hs := ((Prod.mk.injEq _ _ _ _).mp ((Except.ok.injEq _ _).mp h)).1
        rw [← hs]

/-- The principal portion of the source (an if-expression) is the
specified `max(0, amount - interest_portion)`. -/
theorem principal_portion_max (a i : Int) :
    (if a > i then a - i else 0) = max 0 (a - i) := by
  rcases le_or_lt a i with h | h
  · rw [if_neg (not_lt.mpr h), max_eq_left (by omega)]
  · rw [if_pos h, max_eq_right (by omega)]

/-- The balance after a payment is applied. -/
theorem payUpdate_outstanding (l : Loan) (a : Int) :
    (payUpdate l a).outstanding_balance =
      l.outstanding_balance -
        max 0 (a - calculate_interest_portion l.outstanding_balance l.interest_rate) := by
  by_cases hp : a > calculate_interest_portion l.outstanding_balance l.interest_rate
  · dsimp only [payUpdate]
    simp only [if_pos hp]
    rw [max_eq_right (by omega :
      (0 : Int) ≤ a - calculate_interest_portion l.outstanding_balance l.interest_rate)]
    split <;> rfl
  · dsimp only [payUpdate]
    simp only [if_neg hp]
    rw [max_eq_left (by omega :
      a - calculate_interest_portion l.outstanding_balance l.interest_rate ≤ 0)]
    split <;> rfl

/-- The cumulative repaid total after a payment is applied. -/
theorem payUpdate_total_repaid (l : Loan) (a : Int) :
    (payUpdate l a).total_repaid = l.total_repaid + a := by
  dsimp only [payUpdate]
  split <;> split <;> rfl

/-- The payment counter after a payment is applied. -/
theorem payUpdate_payments_made (l : Loan) (a : Int) :
    (payUpdate l a).payments_made = l.payments_made + 1 := by
  dsimp only [payUpdate]
  split <;> split <;> rfl

/-- The missed-payment counter is untouched by a payment. -/
theorem payUpdate_payments_missed (l : Loan) (a : Int) :
    (payUpdate l a).payments_missed = l.payments_missed := by
  dsimp only [payUpdate]
  split <;> split <;> rfl

/-- The status after a payment: `Repaid` exactly when the updated
balance is non-positive, otherwise unchanged. -/
theorem payUpdate_status (l : Loan) (a : Int) :
    (payUpdate l a).status =
      if l.outstanding_balance -
          max 0 (a - calculate_interest_portion l.outstanding_balance l.interest_rate) ≤ 0
      then LoanStatus.Repaid else l.status := by
  by_cases hp : a > calculate_interest_portion l.outstanding_balance l.interest_rate
  · dsimp only [payUpdate]
    simp only [if_pos hp]
    rw [max_eq_right (by omega :
      (0 : Int) ≤ a - calculate_interest_portion l.outstanding_balance l.interest_rate)]
    split <;> rfl
  · dsimp only [payUpdate]
    simp only [if_neg hp]
    rw [max_eq_left (by omega :
      a - calculate_interest_portion l.outstanding_balance l.interest_rate ≤ 0)]
    split <;> rfl

/-- The missed-payment counter after a mark. -/
theorem missedUpdate_payments_missed (l : Loan) :
    (missedUpdate l).payments_missed = l.payments_missed + 1 := by
  dsimp only [missedUpdate]
  split <;> rfl

/-- The status after a mark: `Defaulted` once the incremented counter
reaches 2, otherwise unchanged. -/
theorem missedUpdate_status (l : Loan) :
    (missedUpdate l).status =
      if 2 ≤ l.payments_missed + 1 then LoanStatus.Defaulted else l.status := by
  dsimp only [missedUpdate]
  split <;> rfl

/-- The spec §3 invariant on missed payments: in a state, every stored
loan with `payments_missed ≥ 2` is `Defaulted`. -/
def PmDefaultInv (s : State) : Prop :=
  ∀ id l, lookupLoan s.loans id = some l → 2 ≤ l.payments_missed →
    l.status = LoanStatus.Defaulted

theorem pmDefaultInv_make_payment (s : State) (id : Nat) (a : Int) (s' : State)
    (h : make_payment s id a = .ok s') (inv : PmDefaultInv s) : PmDefaultInv s' := by
  obtain ⟨l, hl, hA, rfl⟩ := make_payment_ok_inv s id a s' h
  intro id2 l2 hl2 hpm
  dsimp only at hl2
  rw [lookupLoan_storeLoan] at hl2
  by_cases hid : id2 = id
  · rw [if_pos hid] at hl2
    obtain rfl := Option.some.inj hl2
    rw [payUpdate_payments_missed] at hpm
    have hD := inv id l hl hpm
    exact absurd (hD.symm.trans hA) (by decide)
  · rw [if_neg hid] at hl2
    exact inv id2 l2 hl2 hpm

theorem pmDefaultInv_approve (s : State) (id : Nat) (s' : State)
    (h : approve_loan s id = .ok s') (inv : PmDefaultInv s) : PmDefaultInv s' := by
  obtain ⟨l, hl, hP, rfl⟩ := approve_loan_ok_inv s id s' h
  intro id2 l2 hl2 hpm
  dsimp only at hl2
  rw [lookupLoan_storeLoan] at hl2
  by_cases hid : id2 = id
  · rw [if_pos hid] at hl2
    obtain rfl := Option.some.inj hl2
    have hD := inv id l hl (by simpa using hpm)
    exact absurd (hD.symm.trans hP) (by decide)
  · rw [if_neg hid] at hl2
    exact inv id2 l2 hl2 hpm

theorem pmDefaultInv_missed (s : State) (auth : Bool) (id : Nat) (s' : State)
    (h : mark_payment_missed s auth id = .ok s') (inv : PmDefaultInv s) :
    PmDefaultInv s' := by
  obtain ⟨l, hl, rfl⟩ := mark_payment_missed_ok_inv s auth id s' h
  intro id2 l2 hl2 hpm
  dsimp only at hl2
  rw [lookupLoan_storeLoan] at hl2
  by_cases hid : id2 = id
  · rw [if_pos hid] at hl2
    obtain rfl := Option.some.inj hl2
    rw [missedUpdate_payments_missed] at hpm
    rw [missedUpdate_status, if_pos hpm]
  · rw [if_neg hid] at hl2
    exact inv id2 l2 hl2 hpm

theorem pmDefaultInv_request (s : State) (b n : Nat) (a : Int) (d t : Nat)
    (s' : State) (id : Nat) (h : request_loan s b n a d t = .ok (s', id))
    (inv : PmDefaultInv s) : PmDefaultInv s' := by
  obtain ⟨mp, hmp, hid0, hloans⟩ := request_loan_ok_inv s b n a d t s' id h
  intro id2 l2 hl2 hpm
  rw [hloans, lookupLoan_storeLoan] at hl2
  by_cases h2 : id2 = s.loan_counter + 1
  · rw [if_pos h2] at hl2
    obtain rfl := Option.some.inj hl2
    simp at hpm
  · rw [if_neg h2] at hl2
    exact inv id2 l2 hl2 hpm

/-- Every reachable state satisfies the missed-payment invariant:
whenever a loan record shows two or more missed payments, its status
is `Defaulted`, because the only operation that increments the counter
defaults the loan in the same call and no operation un-defaults it. -/
theorem reachable_pmDefaultInv (s : State) (h : Reachable s) : PmDefaultInv s := by
  induction h with
  | init =>
      intro id l hl _
      simp [initState, lookupLoan] at hl
  | request s0 s' b n a d t id _hr hok ih =>
      exact pmDefaultInv_request s0 b n a d t s' id hok ih
  | approve s0 s' id _hr hok ih =>
      exact pmDefaultInv_approve s0 id s' hok ih
  | pay s0 s' id a _hr hok ih =>
      exact pmDefaultInv_make_payment s0 id a s' hok ih
  | autopay s0 s' auth id r rem _hr hok ih =>
      obtain ⟨a, ha⟩ := process_automatic_repayment_ok_inv s0 auth id r s' rem hok
      exact pmDefaultInv_make_payment s0 id a s' ha ih
  | missed s0 s' auth id _hr hok ih =>
      exact pmDefaultInv_missed s0 auth id s' hok ih

deriving instance DecidableEq for Except

/-! Concrete scenario states used by the counterexamples and witnesses.
`baseLoan` is exactly the record `request_loan` creates from
`initState` for borrower 0, collateral 1, amount 1000000, duration 12
months at timestamp 0 (placeholder rate 2000 bps, monthly payment
100000); `mkState l` is the one-loan storage holding `l` under id 1. -/

def baseLoan : Loan :=
  { loan_id := 1
    borrower := 0
    nft_collateral_id := 1
    loan_amount := 1000000
    outstanding_balance := 1000000
    total_repaid := 0
    interest_rate := 2000
    duration_months := 12
    monthly_payment := 100000
    start_timestamp := 0
    next_payment_due := 2592000
    status := .Pending
    payments_made := 0
    payments_missed := 0 }

def mkState (l : Loan) : State :=
  { loan_counter := 1, loans := [(1, l)], borrower_loans := [(0, [1])] }

def s_req : State := mkState baseLoan

def activeLoan : Loan := { baseLoan with status := .Active }

def s_act : State := mkState activeLoan

def m1Loan : Loan := { activeLoan with payments_missed := 1 }

def s_m1 : State := mkState m1Loan

def m2Loan : Loan :=
  { activeLoan with payments_missed := 2, status := .Defaulted }

/-- The state after paying 100000 on `s_act`: interest portion 16600,
principal portion 83400, balance 916600, still `Active`. -/
def payLoan100k : Loan :=
  { activeLoan with
    total_repaid := 100000
    outstanding_balance := 916600
    payments_made := 1
    next_payment_due := 5184000 }

theorem reachable_s_req : Reachable s_req :=
  Reachable.request initState s_req 0 1 1000000 12 0 1 Reachable.init (by decide)

theorem reachable_s_act : Reachable s_act :=
  Reachable.approve s_req s_act 1 reachable_s_req (by decide)

theorem reachable_s_m1 : Reachable s_m1 :=
  Reachable.missed s_act s_m1 true 1 reachable_s_act (by decide)

/-! Claim C1. -/

/-- The loan of the C1 counterexample: `Active` with outstanding
balance 10. -/
def c1Loan : Loan := { activeLoan with outstanding_balance := 10 }

/-- Its record after a payment of 100: interest portion 0, principal
portion 100, balance driven to -90 and status flipped to `Repaid`. -/
def c1LoanAfter : Loan :=
  { c1Loan with
    outstanding_balance := -90
    total_repaid := 100
    payments_made := 1
    next_payment_due := 5184000
    status := .Repaid }

/-- C1 is false as stated: paying 100 against an `Active` loan with
outstanding balance 10 succeeds and leaves the balance at -90, not at
`max 0 (10 - principal_portion) = 0` — the source subtracts the
principal portion without clamping, so the balance goes negative and
drops below the `[0, principal]` range. -/
theorem C1_counterexample :
    make_payment (mkState c1Loan) 1 100 = Except.ok (mkState c1LoanAfter) ∧
    c1LoanAfter.outstanding_balance < 0 ∧
    c1LoanAfter.outstanding_balance ≠
      max 0 (c1Loan.outstanding_balance -
        max 0 (100 - calculate_interest_portion c1Loan.outstanding_balance
          c1Loan.interest_rate)) := by
  refine ⟨by decide, by decide, by decide⟩

/-- C1 (amended): after every successful `make_payment` on an `Active`
loan, the new outstanding balance equals the pre-payment balance minus
`max 0 (amount - interest_portion)` — without any clamp at zero, so it
can become negative — and it never increases (it stays at most the
pre-payment balance, hence at most `principal` along any run). -/
theorem C1_amended_balance (s : State) (id : Nat) (l : Loan) (amount : Int)
    (hl : lookupLoan s.loans id = some l) (hA : l.status = LoanStatus.Active) :
    ∃ s', make_payment s id amount = .ok s' ∧
      ∃ l', lookupLoan s'.loans id = some l' ∧
        l'.outstanding_balance = l.outstanding_balance -
          max 0 (amount -
            calculate_interest_portion l.outstanding_balance l.interest_rate) ∧
        l'.outstanding_balance ≤ l.outstanding_balance := by
  refine ⟨_, make_payment_ok s id l amount hl hA, payUpdate l amount, ?_,
    payUpdate_outstanding l amount, ?_⟩
  · dsimp only
    rw [lookupLoan_storeLoan, if_pos rfl]
  · rw [payUpdate_outstanding]
    have h0 : (0 : Int) ≤
        max 0 (amount -
          calculate_interest_portion l.outstanding_balance l.interest_rate) :=
      le_max_left _ _
    omega

/-- Witness for C1 (amended) at the freshly approved loan and a
payment of 100000. -/
theorem C1_amended_balance_witness :
    lookupLoan s_act.loans 1 = some activeLoan ∧
    activeLoan.status = LoanStatus.Active ∧
    (∃ s', make_payment s_act 1 100000 = .ok s' ∧
      ∃ l', lookupLoan s'.loans 1 = some l' ∧
        l'.outstanding_balance = activeLoan.outstanding_balance -
          max 0 (100000 -
            calculate_interest_portion activeLoan.outstanding_balance
              activeLoan.interest_rate) ∧
        l'.outstanding_balance ≤ activeLoan.outstanding_balance) :=
  ⟨by decide, by decide,
    C1_amended_balance s_act 1 activeLoan 100000 (by decide) (by decide)⟩

/-! Claim C2. -/

/-- A terminal (`Repaid`) loan with one missed payment on record. -/
def c2Loan : Loan := { baseLoan with status := .Repaid, payments_missed := 1 }

/-- Its record after `mark_payment_missed`: counter bumped to 2 and
status moved from the terminal `Repaid` to `Defaulted`. -/
def c2LoanAfter : Loan :=
  { c2Loan with payments_missed := 2, status := .Defaulted }

/-- C2 is false as stated: `mark_payment_missed` performs no status
check, so on a `Repaid` (terminal) loan it succeeds instead of
failing, mutates the record, and even moves the status out of
`Repaid` into `Defaulted`. -/
theorem C2_counterexample :
    c2Loan.status = LoanStatus.Repaid ∧
    mark_payment_missed (mkState c2Loan) true 1 = Except.ok (mkState c2LoanAfter) ∧
    mkState c2LoanAfter ≠ mkState c2Loan ∧
    c2LoanAfter.status = LoanStatus.Defaulted := by
  refine ⟨by decide, by decide, by decide, by decide⟩

/-- C2 (amended): on a loan in a terminal state (`Repaid` or
`Defaulted`), `approve_loan` and `make_payment` do fail with
`InvalidState` and leave the persisted state unchanged; but
`mark_payment_missed` succeeds on any existing loan regardless of
status, increments `payments_missed`, and (once the counter reaches 2)
sets the status to `Defaulted` — in particular a `Repaid` loan can
still transition to `Defaulted`. -/
theorem C2_amended_terminal (s : State) (id : Nat) (l : Loan) (a : Int)
    (hl : lookupLoan s.loans id = some l)
    (hterm : l.status = LoanStatus.Repaid ∨ l.status = LoanStatus.Defaulted) :
    approve_loan s id = .error .InvalidState ∧
    make_payment s id a = .error .InvalidState ∧
    commit s (approve_loan s id) = s ∧
    commit s (make_payment s id a) = s ∧
    ∃ s', mark_payment_missed s true id = .ok s' ∧
      ∃ l', lookupLoan s'.loans id = some l' ∧
        l'.payments_missed = l.payments_missed + 1 ∧
        (1 ≤ l.payments_missed → l'.status = LoanStatus.Defaulted) := by
  have hP : ¬ l.status = LoanStatus.Pending := by
    rcases hterm with h | h <;> simp [h]
  have hA : ¬ l.status = LoanStatus.Active := by
    rcases hterm with h | h <;> simp [h]
  have happ : approve_loan s id = .error .InvalidState := by
    simp [approve_loan, hl, hP]
  have hpay : make_payment s id a = .error .InvalidState := by
    simp [make_payment, hl, hA]
  have hmark : mark_payment_missed s true id =
      .ok { s with loans := storeLoan s.loans id (missedUpdate l) } := by
    simp [mark_payment_missed, hl]
  refine ⟨happ, hpay, by rw [happ]; rfl, by rw [hpay]; rfl,
    _, hmark, missedUpdate l, ?_, missedUpdate_payments_missed l, ?_⟩
  · dsimp only
    rw [lookupLoan_storeLoan, if_pos rfl]
  · intro h1
    rw [missedUpdate_status, if_pos (by omega)]

/-- Witness for C2 (amended) at the concrete `Repaid` loan with one
missed payment. -/
theorem C2_amended_terminal_witness :
    lookupLoan (mkState c2Loan).loans 1 = some c2Loan ∧
    (c2Loan.status = LoanStatus.Repaid ∨ c2Loan.status = LoanStatus.Defaulted) ∧
    (approve_loan (mkState c2Loan) 1 = .error .InvalidState ∧
      make_payment (mkState c2Loan) 1 5 = .error .InvalidState ∧
      commit (mkState c2Loan) (approve_loan (mkState c2Loan) 1) = mkState c2Loan ∧
      commit (mkState c2Loan) (make_payment (mkState c2Loan) 1 5) = mkState c2Loan ∧
      ∃ s', mark_payment_missed (mkState c2Loan) true 1 = .ok s' ∧
        ∃ l', lookupLoan s'.loans 1 = some l' ∧
          l'.payments_missed = c2Loan.payments_missed + 1 ∧
          (1 ≤ c2Loan.payments_missed → l'.status = LoanStatus.Defaulted)) :=
  ⟨by decide, by decide,
    C2_amended_terminal (mkState c2Loan) 1 c2Loan 5 (by decide) (by decide)⟩

/-! Claim C3. -/

/-- The record after paying 0 on the freshly approved loan: balance
and total unchanged, but `payments_made` bumped and the due date
advanced. -/
def c3LoanAfter : Loan :=
  { activeLoan with payments_made := 1, next_payment_due := 5184000 }

/-- C3 is false as stated: `make_payment` contains no validation of
`amount`, so a payment of 0 (a non-positive amount) against an
`Active` loan succeeds — it does not fail with `InvalidArgument` —
and it mutates persisted state (`payments_made` is incremented and
`next_payment_due` advances). -/
theorem C3_counterexample :
    make_payment s_act 1 0 = Except.ok (mkState c3LoanAfter) ∧
    make_payment s_act 1 0 ≠ Except.error Err.InvalidArgument ∧
    mkState c3LoanAfter ≠ s_act ∧
    c3LoanAfter.payments_made = activeLoan.payments_made + 1 := by
  refine ⟨by decide, by decide, by decide, by decide⟩

/-- C3 (amended): `make_payment` performs no amount check at all — on
an existing `Active` loan it succeeds for every amount, positive or
not, and no invocation of `make_payment` on any state ever returns
`InvalidArgument` (its only failures are `NotFound` and
`InvalidState`). -/
theorem C3_amended_no_amount_check (s : State) (id : Nat) (l : Loan) (amount : Int)
    (hl : lookupLoan s.loans id = some l) (hA : l.status = LoanStatus.Active) :
    (∃ s', make_payment s id amount = .ok s') ∧
    ∀ (s0 : State) (id0 : Nat) (a0 : Int),
      make_payment s0 id0 a0 ≠ Except.error Err.InvalidArgument := by
  refine ⟨⟨_, make_payment_ok s id l amount hl hA⟩, ?_⟩
  intro s0 id0 a0 h
  unfold make_payment at h
  split at h
  · exact Err.noConfusion (Except.error.inj h)
  · split at h
    · exact Except.noConfusion h
    · exact Err.noConfusion (Except.error.inj h)

/-- Witness for C3 (amended) at the freshly approved loan and the
non-positive amount 0. -/
theorem C3_amended_no_amount_check_witness :
    lookupLoan s_act.loans 1 = some activeLoan ∧
    activeLoan.status = LoanStatus.Active ∧
    ((∃ s', make_payment s_act 1 0 = .ok s') ∧
      ∀ (s0 : State) (id0 : Nat) (a0 : Int),
        make_payment s0 id0 a0 ≠ Except.error Err.InvalidArgument) :=
  ⟨by decide, by decide,
    C3_amended_no_amount_check s_act 1 activeLoan 0 (by decide) (by decide)⟩

/-! Claim C4. -/

/-- The record after a successful payment of -5 on the freshly
approved loan: `total_repaid` moves from 0 down to -5. -/
def c4LoanAfter : Loan :=
  { activeLoan with
    total_repaid := -5
    payments_made := 1
    next_payment_due := 5184000 }

/-- C4 is false as stated: the one-element sequence of successful
`make_payment` calls with amount -5 (the source never rejects a
negative amount) strictly decreases `total_repaid`, from 0 to -5. -/
theorem C4_counterexample :
    paySequence s_act 1 [-5] = Except.ok (mkState c4LoanAfter) ∧
    c4LoanAfter.total_repaid < activeLoan.total_repaid := by
  refine ⟨by decide, by decide⟩

/-- C4 (amended): across every sequence of successful `make_payment`
calls on a loan, `payments_made` never decreases; `total_repaid`
never decreases provided every amount in the sequence is
non-negative (the code does not enforce this — a negative amount,
if the external token transfer allowed it, would decrease it). -/
theorem C4_amended_monotone (id : Nat) (s' : State) (l' : Loan)
    (hl' : lookupLoan s'.loans id = some l') :
    ∀ (as : List Int) (s : State) (l : Loan),
      paySequence s id as = .ok s' →
      lookupLoan s.loans id = some l →
      l.payments_made ≤ l'.payments_made ∧
      ((∀ a ∈ as, 0 ≤ a) → l.total_repaid ≤ l'.total_repaid) := by
  intro as
  induction as with
  | nil =>
      intro s l h hl
      obtain rfl : s = s' := (Except.ok.injEq _ _).mp h
      rw [hl] at hl'
      obtain rfl := Option.some.inj hl'
      exact ⟨le_refl _, fun _ => le_refl _⟩
  | cons a rest ih =>
      intro s l h hl
      dsimp only [paySequence] at h
      cases hmk : make_payment s id a with
      | error e =>
          rw [hmk] at h
          exact absurd h (by simp)
      | ok s1 =>
          rw [hmk] at h
          obtain ⟨l0, hl0, _hA0, rfl⟩ := make_payment_ok_inv s id a s1 hmk
          rw [hl] at hl0
          obtain rfl := Option.some.inj hl0
          have hl1 : lookupLoan
              ({ s with loans := storeLoan s.loans id (payUpdate l a) } : State).loans
              id = some (payUpdate l a) := by
            dsimp only
            rw [lookupLoan_storeLoan, if_pos rfl]
          obtain ⟨hpm, htr⟩ := ih _ _ h hl1
          constructor
          · have hstep := payUpdate_payments_made l a
            omega
          · intro hpos
            have h0 : (0 : Int) ≤ a := hpos a (by simp)
            have hrest : ∀ x ∈ rest, (0 : Int) ≤ x := fun x hx => hpos x (by simp [hx])
            have htr' := htr hrest
            have hstep := payUpdate_total_repaid l a
            omega

/-- Witness for C4 (amended): one successful payment of 100000 on the
freshly approved loan. -/
theorem C4_amended_monotone_witness :
    lookupLoan (mkState payLoan100k).loans 1 = some payLoan100k ∧
    paySequence s_act 1 [100000] = Except.ok (mkState payLoan100k) ∧
    lookupLoan s_act.loans 1 = some activeLoan ∧
    (activeLoan.payments_made ≤ payLoan100k.payments_made ∧
      ((∀ a ∈ [(100000 : Int)], 0 ≤ a) →
        activeLoan.total_repaid ≤ payLoan100k.total_repaid)) :=
  ⟨by decide, by decide, by decide,
    C4_amended_monotone 1 (mkState payLoan100k) payLoan100k (by decide)
      [100000] s_act activeLoan (by decide) (by decide)⟩

/-! Claim C5. -/

/-- C5 (confirmed): every successful payment splits against the
pre-payment balance with the truncated monthly rate: the interest
portion is `outstanding_balance * (annual_rate_bps / 12) / 10000`
(the rate truncated by integer division before use, the final
division truncating toward zero), the principal portion is
`max 0 (amount - interest_portion)`, and when
`amount < interest_portion` the balance is left unchanged. -/
theorem C5_interest_split (s : State) (id : Nat) (l : Loan) (amount : Int)
    (hl : lookupLoan s.loans id = some l) (hA : l.status = LoanStatus.Active) :
    calculate_interest_portion l.outstanding_balance l.interest_rate =
      (l.outstanding_balance * ((l.interest_rate / 12 : Nat) : Int)).tdiv 10000 ∧
    ∃ s', make_payment s id amount = .ok s' ∧
      ∃ l', lookupLoan s'.loans id = some l' ∧
        l'.outstanding_balance = l.outstanding_balance -
          max 0 (amount -
            calculate_interest_portion l.outstanding_balance l.interest_rate) ∧
        (amount < calculate_interest_portion l.outstanding_balance l.interest_rate →
          l'.outstanding_balance = l.outstanding_balance) := by
  refine ⟨rfl, _, make_payment_ok s id l amount hl hA, payUpdate l amount, ?_,
    payUpdate_outstanding l amount, ?_⟩
  · dsimp only
    rw [lookupLoan_storeLoan, if_pos rfl]
  · intro hlt
    rw [payUpdate_outstanding, max_eq_left (by omega)]
    omega

/-- Witness for C5 at the freshly approved loan and the shortfall
amount 5 (below the interest portion 16600). -/
theorem C5_interest_split_witness :
    lookupLoan s_act.loans 1 = some activeLoan ∧
    activeLoan.status = LoanStatus.Active ∧
    (calculate_interest_portion activeLoan.outstanding_balance
        activeLoan.interest_rate =
      (activeLoan.outstanding_balance *
        ((activeLoan.interest_rate / 12 : Nat) : Int)).tdiv 10000 ∧
    ∃ s', make_payment s_act 1 5 = .ok s' ∧
      ∃ l', lookupLoan s'.loans 1 = some l' ∧
        l'.outstanding_balance = activeLoan.outstanding_balance -
          max 0 (5 -
            calculate_interest_portion activeLoan.outstanding_balance
              activeLoan.interest_rate) ∧
        (5 < calculate_interest_portion activeLoan.outstanding_balance
            activeLoan.interest_rate →
          l'.outstanding_balance = activeLoan.outstanding_balance)) :=
  ⟨by decide, by decide,
    C5_interest_split s_act 1 activeLoan 5 (by decide) (by decide)⟩

/-! Claim C6. -/

/-- C6 (confirmed): for every positive number of months,
`calculate_monthly_payment` returns
`(principal + total_interest) / months` with
`total_interest = principal * annual_rate_bps * months / (12 * 10000)`,
both divisions truncating toward zero; it is a pure function of its
arguments. -/
theorem C6_monthly_payment (principal : Int) (annual_rate_bps months : Nat)
    (h : 0 < months) :
    calculate_monthly_payment principal annual_rate_bps months =
      some ((principal +
        (principal * (annual_rate_bps : Int) * (months : Int)).tdiv
          (12 * 10000)).tdiv (months : Int)) := by
  simp only [calculate_monthly_payment]
  rw [if_neg (by omega)]

/-- Witness for C6 at the documented inputs: principal 1000000, rate
2000 bps, 12 months give a monthly payment of 100000. -/
theorem C6_monthly_payment_witness :
    0 < 12 ∧ calculate_monthly_payment 1000000 2000 12 = some 100000 :=
  ⟨by decide, by rw [C6_monthly_payment 1000000 2000 12 (by decide)]; decide⟩

/-! Claim C7. -/

/-- C7 (confirmed): authorized as the oracle, against an existing
`Active` loan `process_automatic_repayment` applies a payment of
`min remittance_amount monthly_payment` and returns
`remittance_amount - payment_amount`. -/
theorem C7_oracle_residual (s : State) (id : Nat) (l : Loan) (r : Int)
    (hl : lookupLoan s.loans id = some l) (hA : l.status = LoanStatus.Active) :
    ∃ s', make_payment s id (min r l.monthly_payment) = .ok s' ∧
      process_automatic_repayment s true id r =
        .ok (s', r - min r l.monthly_payment) := by
  have hmin : (if r ≥ l.monthly_payment then l.monthly_payment else r) =
      min r l.monthly_payment := by
    rcases le_total l.monthly_payment r with h | h
    · rw [if_pos h, min_eq_right h]
    · rcases eq_or_lt_of_le h with he | hlt
      · rw [he]
        simp
      · rw [if_neg (not_le.mpr hlt), min_eq_left h]
  have hmk := make_payment_ok s id l (min r l.monthly_payment) hl hA
  refine ⟨_, hmk, ?_⟩
  simp only [process_automatic_repayment, hl]
  rw [hmin, hmk]
  simp

/-- Witness for C7: a remittance of 150000 against the freshly
approved loan (monthly payment 100000) applies a payment of 100000
and returns the residual 50000. -/
theorem C7_oracle_residual_witness :
    lookupLoan s_act.loans 1 = some activeLoan ∧
    activeLoan.status = LoanStatus.Active ∧
    (∃ s', make_payment s_act 1 (min 150000 activeLoan.monthly_payment) = .ok s' ∧
      process_automatic_repayment s_act true 1 150000 =
        .ok (s', 150000 - min 150000 activeLoan.monthly_payment)) ∧
    process_automatic_repayment s_act true 1 150000 =
      .ok (mkState payLoan100k, 50000) :=
  ⟨by decide, by decide,
    C7_oracle_residual s_act 1 activeLoan 150000 (by decide) (by decide),
    by decide⟩

/-! Claim C8. -/

/-- C8 is false as stated: the state `s_m1` — reachable by request,
approve, and one oracle miss report — holds an `Active` loan with one
missed payment already recorded, and a single further call to
`mark_payment_missed` moves it to `Defaulted`, not leaves it
`Active`. -/
theorem C8_counterexample :
    Reachable s_m1 ∧
    lookupLoan s_m1.loans 1 = some m1Loan ∧
    m1Loan.status = LoanStatus.Active ∧
    mark_payment_missed s_m1 true 1 = Except.ok (mkState m2Loan) ∧
    m2Loan.status = LoanStatus.Defaulted := by
  refine ⟨reachable_s_m1, by decide, by decide, by decide, by decide⟩

/-- C8 (amended): each `mark_payment_missed` call on an existing loan
increments `payments_missed` by exactly 1; on an `Active` loan with
no missed payment recorded, after one call the status is still
`Active`, and after the second call it is `Defaulted` (after two
calls the status is `Defaulted` for any starting loan); and in every
reachable state a loan with `payments_missed ≥ 2` is `Defaulted`. -/
theorem C8_amended_missed (s : State) (id : Nat) (l : Loan)
    (hl : lookupLoan s.loans id = some l) :
    (∃ s1 l1, mark_payment_missed s true id = .ok s1 ∧
      lookupLoan s1.loans id = some l1 ∧
      l1.payments_missed = l.payments_missed + 1 ∧
      (l.status = LoanStatus.Active → l.payments_missed = 0 →
        l1.status = LoanStatus.Active) ∧
      ∃ s2 l2, mark_payment_missed s1 true id = .ok s2 ∧
        lookupLoan s2.loans id = some l2 ∧
        l2.status = LoanStatus.Defaulted) ∧
    (Reachable s → ∀ id2 l2, lookupLoan s.loans id2 = some l2 →
      2 ≤ l2.payments_missed → l2.status = LoanStatus.Defaulted) := by
  have h1 : mark_payment_missed s true id =
      .ok { s with loans := storeLoan s.loans id (missedUpdate l) } := by
    simp [mark_payment_missed, hl]
  have hl1 : lookupLoan
      ({ s with loans := storeLoan s.loans id (missedUpdate l) } : State).loans id =
      some (missedUpdate l) := by
    dsimp only
    rw [lookupLoan_storeLoan, if_pos rfl]
  have h2 : mark_payment_missed
      { s with loans := storeLoan s.loans id (missedUpdate l) } true id =
      .ok { s with loans := storeLoan (storeLoan s.loans id (missedUpdate l)) id (missedUpdate (missedUpdate l)) } := by
    simp [mark_payment_missed, hl1]
  refine ⟨⟨_, missedUpdate l, h1, hl1, missedUpdate_payments_missed l, ?_,
    _, missedUpdate (missedUpdate l), h2, ?_, ?_⟩, ?_⟩
  · intro hA h0
    rw [missedUpdate_status, if_neg (by omega)]
    exact hA
  · dsimp only
    rw [lookupLoan_storeLoan, if_pos rfl]
  · have hpm1 := missedUpdate_payments_missed l
    rw [missedUpdate_status, if_pos (by omega)]
  · intro hr
    exact fun id2 l2 h2 hp => reachable_pmDefaultInv s hr id2 l2 h2 hp

/-- Witness for C8 (amended) at the freshly approved loan (no missed
payments yet). -/
theorem C8_amended_missed_witness :
    lookupLoan s_act.loans 1 = some activeLoan ∧
    ((∃ s1 l1, mark_payment_missed s_act true 1 = .ok s1 ∧
      lookupLoan s1.loans 1 = some l1 ∧
      l1.payments_missed = activeLoan.payments_missed + 1 ∧
      (activeLoan.status = LoanStatus.Active → activeLoan.payments_missed = 0 →
        l1.status = LoanStatus.Active) ∧
      ∃ s2 l2, mark_payment_missed s1 true 1 = .ok s2 ∧
        lookupLoan s2.loans 1 = some l2 ∧
        l2.status = LoanStatus.Defaulted) ∧
    (Reachable s_act → ∀ id2 l2, lookupLoan s_act.loans id2 = some l2 →
      2 ≤ l2.payments_missed → l2.status = LoanStatus.Defaulted)) :=
  ⟨by decide, C8_amended_missed s_act 1 activeLoan (by decide)⟩

/-! Claim C9. -/

/-- C9 (confirmed): approving a `Pending` loan succeeds and sets its
status to `Active`; a second `approve_loan` on the same loan fails
with `InvalidState`, and — by the revert-on-failure transaction
semantics — the failed call leaves every piece of persisted state
exactly as it was. -/
theorem C9_approve_twice (s : State) (id : Nat) (l : Loan)
    (hl : lookupLoan s.loans id = some l) (hP : l.status = LoanStatus.Pending) :
    ∃ s1, approve_loan s id = .ok s1 ∧
      lookupLoan s1.loans id = some { l with status := LoanStatus.Active } ∧
      approve_loan s1 id = .error .InvalidState ∧
      commit s1 (approve_loan s1 id) = s1 := by
  have h1 : approve_loan s id =
      .ok { s with loans := storeLoan s.loans id { l with status := .Active } } := by
    simp [approve_loan, hl, hP]
  have hl1 : lookupLoan
      ({ s with loans := storeLoan s.loans id { l with status := .Active } } : State).loans
      id = some { l with status := LoanStatus.Active } := by
    dsimp only
    rw [lookupLoan_storeLoan, if_pos rfl]
  have h2 : approve_loan
      { s with loans := storeLoan s.loans id { l with status := .Active } } id =
      .error .InvalidState := by
    simp [approve_loan, hl1]
  exact ⟨_, h1, hl1, h2, by rw [h2]; rfl⟩

/-- Witness for C9 at the freshly requested (still `Pending`) loan. -/
theorem C9_approve_twice_witness :
    lookupLoan s_req.loans 1 = some baseLoan ∧
    baseLoan.status = LoanStatus.Pending ∧
    (∃ s1, approve_loan s_req 1 = .ok s1 ∧
      lookupLoan s1.loans 1 = some { baseLoan with status := LoanStatus.Active } ∧
      approve_loan s1 1 = .error .InvalidState ∧
      commit s1 (approve_loan s1 1) = s1) :=
  ⟨by decide, by decide,
    C9_approve_twice s_req 1 baseLoan (by decide) (by decide)⟩

/-! Claim C10. -/

/-- C10 (confirmed): requesting a loan with `duration_months = 0`
never returns `InvalidArgument` — there is no such validation — but
traps in `calculate_monthly_payment`'s unguarded division by
`months`, so the whole invocation aborts and no loan record (nor any
other state change) is created. -/
theorem C10_duration_zero_trap (s : State) (b n : Nat) (a : Int) (t : Nat) :
    request_loan s b n a 0 t = .error Err.PanicDivByZero ∧
    commitFst s (request_loan s b n a 0 t) = s ∧
    Err.PanicDivByZero ≠ Err.InvalidArgument := by
  have h : request_loan s b n a 0 t = .error Err.PanicDivByZero := by
    simp [request_loan, calculate_monthly_payment]
  exact ⟨h, by rw [h]; rfl, by decide⟩

/-- Witness for C10 at concrete inputs. -/
theorem C10_duration_zero_trap_witness :
    request_loan initState 0 1 1000000 0 0 = .error Err.PanicDivByZero ∧
    commitFst initState (request_loan initState 0 1 1000000 0 0) = initState ∧
    Err.PanicDivByZero ≠ Err.InvalidArgument :=
  C10_duration_zero_trap initState 0 1 1000000 0

end LoanManager
